import Mathlib

/-!
Verification of core subsystems of the `rustboycolor` Game Boy (Color)
emulator: a shallow embedding in Lean 4 of the register file, the `Memory`
trait and its default word accessors, the CPU ALU and interrupt dispatch,
the MBC0/MBC1 cartridge mappers, the timer block, the GPU state machine and
the MMU bus, together with theorems about the properties the specification
states for them.

Machine integers (`u8`, `u16`, `u64`, `usize`) are modelled as `Nat` with
explicit masking (`% 256`, `&&& 0xFF`, ...) at the points where the Rust
code truncates or wraps. Code that can panic (`todo!`, `unreachable!`,
array indexing that can go out of bounds, `u16` overflow in debug builds)
is modelled with `Option`, `none` standing for the panic. Fixed-size Rust
buffers (`[u8; N]`, `Vec<u8>`) are modelled as total functions
`Nat → Nat` read and written at indices the code computes.
-/

namespace RustBoy

/-! ## Register file (src/registers.rs) -/

/-- Zero flag bit mask. -/
def Z_FLAG : Nat := 0x80
/-- Subtraction flag bit mask. -/
def N_FLAG : Nat := 0x40
/-- Half-carry flag bit mask. -/
def H_FLAG : Nat := 0x20
/-- Carry flag bit mask. -/
def C_FLAG : Nat := 0x10

/-- The Game Boy CPU register file: eight 8-bit registers plus PC and SP. -/
structure Registers where
  a : Nat
  f : Nat
  b : Nat
  c : Nat
  d : Nat
  e : Nat
  h : Nat
  l : Nat
  pc : Nat
  sp : Nat
deriving Repr, DecidableEq

/-- Construct the zero-initialized register file of `Registers::new`. -/
def Registers.new : Registers :=
  { a := 0, f := 0, b := 0, c := 0, d := 0, e := 0, h := 0, l := 0, pc := 0, sp := 0 }

/-- Test a flag: `self.f & mask != 0`. -/
def Registers.flag (r : Registers) (mask : Nat) : Bool :=
  r.f &&& mask != 0

/-- Set or clear the flag bits given by `mask`; `!mask` on a `u8` is
`0xFF ^^^ mask`. -/
def Registers.set_flag (r : Registers) (mask : Nat) (value : Bool) : Registers :=
  if value then { r with f := r.f ||| mask } else { r with f := r.f &&& (0xFF ^^^ mask) }

/-! ## The Memory trait (src/memory.rs)

A `Memory` implementation is a state type `σ` with `read_byte` and
`write_byte`; `read_byte` takes `&mut self` in the source so it returns a
new state as well as the byte. The trait's default `read_word` and
`write_word` evaluate `address + 1` on a `u16`: at `address = 0xFFFF` this
addition leaves the 16-bit range (an overflow panic in a debug build), so
the word accessors are modelled as `Option`-valued, `none` at 0xFFFF. -/

/-- A `Memory` trait implementation over state type `σ`. -/
structure MemoryOps (σ : Type) where
  read_byte : σ → Nat → σ × Nat
  write_byte : σ → Nat → Nat → σ

/-- Default `Memory::read_word`:
`self.read_byte(address) as u16 | ((self.read_byte(address + 1) as u16) << 8)`.
The second fetch needs `address + 1` to stay a valid `u16`. -/
def MemoryOps.read_word (M : MemoryOps σ) (s : σ) (address : Nat) :
    Option (σ × Nat) :=
  if address + 1 ≤ 0xFFFF then
    let r1 := M.read_byte s address
    let r2 := M.read_byte r1.1 (address + 1)
    some (r2.1, r1.2 ||| (r2.2 <<< 8))
  else none

/-- Default `Memory::write_word`: low byte at `address`, high byte at
`address + 1`; the latter must stay a valid `u16`. -/
def MemoryOps.write_word (M : MemoryOps σ) (s : σ) (address word : Nat) :
    Option σ :=
  if address + 1 ≤ 0xFFFF then
    let s1 := M.write_byte s address (word &&& 0x00FF)
    some (M.write_byte s1 (address + 1) ((word &&& 0xFF00) >>> 8))
  else none

/-- The flat 64 KiB `TestMemory` used by the CPU test harness
(src/cpu/test/mod.rs), its byte vector modelled as a function. -/
def testMemoryOps : MemoryOps (Nat → Nat) where
  read_byte := fun mem a => (mem, mem a)
  write_byte := fun mem a byte => fun x => if x = a then byte else mem x

/-! ## Interrupts (src/irq.rs) -/

/-- The five Game Boy interrupt lines. -/
inductive Interrupt where
  | V_Blank
  | LCD_Stat
  | Timer
  | Serial
  | Joypad
deriving Repr, DecidableEq

/-- Bit mask of an interrupt line (the discriminant values `1 << 0` ..
`1 << 4` of the Rust enum). -/
def Interrupt.mask : Interrupt → Nat
  | .V_Blank => 0x01
  | .LCD_Stat => 0x02
  | .Timer => 0x04
  | .Serial => 0x08
  | .Joypad => 0x10

/-- `Interrupt::from_u8`: recover an interrupt line from its mask byte. -/
def Interrupt.from_u8 (byte : Nat) : Option Interrupt :=
  if byte = 0x01 then some .V_Blank
  else if byte = 0x02 then some .LCD_Stat
  else if byte = 0x04 then some .Timer
  else if byte = 0x08 then some .Serial
  else if byte = 0x10 then some .Joypad
  else none

/-- `Interrupt::address`: the vector the CPU jumps to for this line. -/
def Interrupt.address : Interrupt → Nat
  | .V_Blank => 0x40
  | .LCD_Stat => 0x48
  | .Timer => 0x50
  | .Serial => 0x58
  | .Joypad => 0x60

/-- Interrupt Flag register address. -/
def INTERRUPT_FLAG_ADDRESS : Nat := 0xFF0F
/-- Interrupt Enable register address. -/
def INTERRUPT_ENABLE_ADDRESS : Nat := 0xFFFF

/-! ## CPU state and ALU (src/cpu/mod.rs) -/

/-- The CPU state, generic over the memory it operates on (the dispatch
arrays are function tables and carry no state, so they are not fields). -/
structure Cpu (σ : Type) where
  cycles : Nat
  halted : Bool
  regs : Registers
  mem : σ
  ime : Bool
  if_reg_before_halt : Nat
  opcode : Nat

/-- `Cpu::alu_add`: add `b` (plus the carry flag when `add_c`) to register
A. `r` is the `u16` sum; note the source tests `r == 0x0` on that 16-bit
sum for the Z flag, and stores `r as u8` into A. -/
def Cpu.alu_add (cpu : Cpu σ) (b : Nat) (add_c : Bool) : Cpu σ :=
  let a := cpu.regs.a
  let c : Nat := if add_c && cpu.regs.flag C_FLAG then 1 else 0
  let r := a + b + c
  let regs := cpu.regs.set_flag Z_FLAG (r = 0)
  let regs := regs.set_flag N_FLAG false
  let regs := regs.set_flag H_FLAG ((a &&& 0x0F) + (b &&& 0x0F) + c > 0x0F)
  let regs := regs.set_flag C_FLAG (r > 0xFF)
  { cpu with regs := { regs with a := r % 256 } }

/-- `Cpu::ADD_r_b` (opcode 0x80): add register B to register A, one
machine cycle. -/
def Cpu.ADD_r_b (cpu : Cpu σ) : Cpu σ × Nat :=
  (cpu.alu_add cpu.regs.b false, 1)

/-- `Cpu::stack_push`: decrement SP by 2 (wrapping) and store the word
there through the memory's `write_word` (which can fail at 0xFFFF). -/
def Cpu.stack_push (M : MemoryOps σ) (cpu : Cpu σ) (value : Nat) :
    Option (Cpu σ) :=
  let sp := (cpu.regs.sp + 0x10000 - 2) % 0x10000
  match M.write_word cpu.mem sp value with
  | some mem => some { cpu with regs := { cpu.regs with sp := sp }, mem := mem }
  | none => none

/-- `Cpu::cpu_call`: push the current PC and jump to `address`. -/
def Cpu.cpu_call (M : MemoryOps σ) (cpu : Cpu σ) (address : Nat) :
    Option (Cpu σ) :=
  (cpu.stack_push M cpu.regs.pc).map
    (fun c => { c with regs := { c.regs with pc := address } })

/-- One iteration of the `for i in 0..5` loop of `Cpu::handle_interrupt`:
if bit `i` of the cached `interrupts = IE & IF` is set, overwrite IF with
`interrupts & !(1 << i)`, clear IME and call the vector; otherwise leave
the CPU unchanged (`continue`). -/
def Cpu.handle_interrupt_iter (M : MemoryOps σ) (interrupts : Nat)
    (cpu : Cpu σ) (i : Nat) : Option (Cpu σ) :=
  match Interrupt.from_u8 (interrupts &&& (1 <<< i)) with
  | none => some cpu
  | some intr =>
    let mem := M.write_byte cpu.mem INTERRUPT_FLAG_ADDRESS
      (interrupts &&& (0xFF ^^^ (1 <<< i)))
    Cpu.cpu_call M { cpu with mem := mem, ime := false } intr.address

/-- `Cpu::handle_interrupt`: invoked at each `step` before the fetch.
Returns early when IME is false or no enabled interrupt is pending;
otherwise runs the loop over all five lines. The returned `Nat` is the
cycle count (always 0 in the source). -/
def Cpu.handle_interrupt (M : MemoryOps σ) (cpu : Cpu σ) :
    Option (Cpu σ × Nat) :=
  if !cpu.ime then some (cpu, 0)
  else
    let r1 := M.read_byte cpu.mem INTERRUPT_ENABLE_ADDRESS
    let r2 := M.read_byte r1.1 INTERRUPT_FLAG_ADDRESS
    let cpu := { cpu with mem := r2.1 }
    let interrupts := r1.2 &&& r2.2
    if interrupts = 0 then some (cpu, 0)
    else do
      let c ← (List.range 5).foldlM
        (fun c i => Cpu.handle_interrupt_iter M interrupts c i) cpu
      some (c, 0)

/-! ## MBC1 cartridge mapper (src/mbc/mbc1.rs) -/

/-- State of the bank-1 memory bank controller; `rom` and `ram` model the
backing byte vectors as functions from index to byte. -/
structure MBC1 where
  rom : Nat → Nat
  ram : Nat → Nat
  rom_bank : Nat
  ram_bank : Nat
  ram_enabled : Bool
  ram_mode : Bool

/-- `MBC1::rom_read`: bank 0 below 0x4000, the selected bank above. -/
def MBC1.rom_read (m : MBC1) (address : Nat) : Nat :=
  if address < 0x4000 then m.rom address
  else m.rom (m.rom_bank * 0x4000 + (address &&& 0x3FFF))

/-- `MBC1::ram_read`: 0 when RAM is disabled, else the active bank (bank 0
outside RAM mode). -/
def MBC1.ram_read (m : MBC1) (address : Nat) : Nat :=
  if !m.ram_enabled then 0
  else
    let ram_bank := if m.ram_mode then m.ram_bank else 0
    m.ram (ram_bank * 0x2000 + (address &&& 0x1FFF))

/-- `MBC1::rom_control`: a write in ROM space hits one of four control
bands. Note the 0x2000-0x3FFF band computes the new low bank bits from
`(address as usize) & 0x1F`, and the 0x4000-0x5FFF band from
`(address as usize) & 0x03`; the written `value` is consulted only by the
0x0000-0x1FFF and 0x6000-0x7FFF bands. Addresses above 0x7FFF panic. -/
def MBC1.rom_control (m : MBC1) (address value : Nat) : Option MBC1 :=
  if address ≤ 0x1FFF then
    some { m with ram_enabled := value = 0x0A }
  else if address ≤ 0x3FFF then
    some { m with rom_bank :=
      (m.rom_bank &&& 0x60) +
        (let n := address &&& 0x1F; if n = 0 then 0x1 else n) }
  else if address ≤ 0x5FFF then
    let n := address &&& 0x03
    if m.ram_mode then some { m with ram_bank := n }
    else some { m with rom_bank := (m.rom_bank &&& 0x1F) ||| (n <<< 5) }
  else if address ≤ 0x7FFF then
    some { m with ram_mode := value = 0x01 }
  else none

/-- `MBC1::ram_write`: dropped when RAM is disabled, else stores into the
active bank. -/
def MBC1.ram_write (m : MBC1) (address value : Nat) : MBC1 :=
  if !m.ram_enabled then m
  else
    let ram_bank := if m.ram_mode then m.ram_bank else 0
    let idx := ram_bank * 0x2000 + (address &&& 0x1FFF)
    { m with ram := fun x => if x = idx then value else m.ram x }

/-! ## MBC0 cartridge mapper (src/mbc/mbc0.rs) -/

/-- State of the no-mapper cartridge: a 64 KiB ROM image and an optional
8 KiB external RAM (`eram: Option<[u8; 0x2000]>`, modelled as a presence
flag plus the buffer contents). -/
structure MBC0 where
  rom : Nat → Nat
  eram_present : Bool
  eram : Nat → Nat

/-- `MBC0::rom_read`: direct pass-through. -/
def MBC0.rom_read (m : MBC0) (address : Nat) : Nat :=
  m.rom address

/-- `MBC0::ram_read`: the buffer byte when RAM is present, else 0. -/
def MBC0.ram_read (m : MBC0) (address : Nat) : Nat :=
  if m.eram_present then m.eram (address &&& 0x1FFF) else 0

/-- `MBC0::ram_write`. The source runs
`self.eram.unwrap()[(address as usize) & 0x1FFF] = value;` when
`eram.is_some()`. Because `[u8; 0x2000]` is `Copy`, `Option::unwrap`
(which takes `self` by value) copies the array out of the option, so the
indexed store mutates a temporary that is dropped at the end of the
statement: the `MBC0` state is unchanged in every case. -/
def MBC0.ram_write (m : MBC0) (address value : Nat) : MBC0 :=
  m

/-! ## Timers (src/mmu/timers.rs)

The two `TimerClock` sub-counters are inlined as period/counter pairs. -/

/-- The DIV/TIMA/TMA/TAC timer block. -/
structure Timers where
  divider : Nat
  divider_clock_period : Nat
  divider_clock_counter : Nat
  counter : Nat
  modulo : Nat
  modulo_clock_period : Nat
  modulo_clock_counter : Nat
  control : Nat
deriving Repr, DecidableEq

/-- `Timers::default`: DIV ticking every 256 machine cycles, TIMA clock at
the TAC=0 period of 1024. -/
def Timers.default : Timers :=
  { divider := 0, divider_clock_period := 256, divider_clock_counter := 0,
    counter := 0, modulo := 0,
    modulo_clock_period := 1024, modulo_clock_counter := 0, control := 0 }

/-- `TimerClock::update`: accumulate `cycles`, return how many whole
periods elapsed, keep the remainder. Result is (elapsed, new counter). -/
def timerClockUpdate (period counter cycles : Nat) : Nat × Nat :=
  let counter := counter + cycles
  (counter / period, counter % period)

/-- The body of the `for _ in 0..n` loop of `Timers::cycle`: increment
TIMA (wrapping) `n` times; each time it wraps to 0, reload it with TMA and
request a Timer interrupt. Returns the final counter and whether at least
one Timer interrupt was requested during the loop. -/
def timaLoop (modulo : Nat) : Nat → Nat → Nat × Bool
  | 0, counter => (counter, false)
  | Nat.succ k, counter =>
    let c := (counter + 1) % 256
    if c = 0 then
      let r := timaLoop modulo k modulo
      (r.1, true)
    else
      timaLoop modulo k c

/-- `Timers::cycle`: advance DIV by the elapsed 256-cycle periods
(`wrapping_add` of the `as u8` cast of the count), then, when TAC bit 2 is
set, advance TIMA by the elapsed TAC periods. The second component is the
mask of interrupts requested through the IRQ handler. -/
def Timers.cycle (t : Timers) (ticks : Nat) : Timers × Nat :=
  let d := timerClockUpdate t.divider_clock_period t.divider_clock_counter ticks
  let t := { t with divider := (t.divider + d.1 % 256) % 256,
                    divider_clock_counter := d.2 }
  if t.control &&& 0x04 != 0 then
    let u := timerClockUpdate t.modulo_clock_period t.modulo_clock_counter ticks
    let r := timaLoop t.modulo u.1 t.counter
    ({ t with modulo_clock_counter := u.2, counter := r.1 },
     if r.2 then Interrupt.Timer.mask else 0)
  else (t, 0)

/-- Specification-level single TIMA increment: a counter at 0xFF wraps and
is reloaded with TMA, with the interrupt flag latched; otherwise the
counter just increments. Iterating this once per elapsed period is what
the specification describes for `Timers::cycle`. -/
def timaSpecStep (modulo : Nat) : Nat × Bool → Nat × Bool
  | (c, i) => if c = 0xFF then (modulo, true) else (c + 1, i)

/-- `Timers::read_byte`: the four mapped registers; any other address is
`unreachable!`. -/
def Timers.read_byte (t : Timers) (address : Nat) : Option Nat :=
  if address = 0xFF04 then some t.divider
  else if address = 0xFF05 then some t.counter
  else if address = 0xFF06 then some t.modulo
  else if address = 0xFF07 then some t.control
  else none

/-- `Timers::write_byte`: a DIV write resets DIV and its clock; a TAC
write that changes the input-clock bits resets the TIMA clock, installs
the new period and reloads TIMA from TMA. -/
def Timers.write_byte (t : Timers) (address byte : Nat) : Option Timers :=
  if address = 0xFF04 then
    some { t with divider := 0, divider_clock_counter := 0 }
  else if address = 0xFF05 then some { t with counter := byte }
  else if address = 0xFF06 then some { t with modulo := byte }
  else if address = 0xFF07 then
    if t.control &&& 0x03 != byte &&& 0x03 then
      let period : Nat :=
        if byte &&& 0x03 = 0 then 1024
        else if byte &&& 0x03 = 1 then 16
        else if byte &&& 0x03 = 2 then 64
        else 256
      some { t with modulo_clock_counter := 0, modulo_clock_period := period,
                    counter := t.modulo, control := byte }
    else some { t with control := byte }
  else none

/-! ## GPU data model (src/gpu.rs, src/gpu/{tile,palette,registers}.rs)

The embedding covers the classic (non-CGB) GPU: the MMU under scrutiny is
built with `cgb_mode == false`, for which the CGB branches of
`Gpu::{read_byte,write_byte}` fall through without effect and `cgb_data`
is `None`. -/

/-- Simple RGB color. -/
structure RGB where
  r : Nat
  g : Nat
  b : Nat
deriving Repr, DecidableEq

/-- An 8x8 tile, stored as its 16 raw bytes (a function from byte index to
byte). The Rust struct also caches the decoded 8x8 color grid in a `data`
field that `new` and `update_raw_byte` always recompute from `raw_data`;
the cache is therefore represented by the derived function `Tile.data`. -/
structure Tile where
  raw_data : Nat → Nat

/-- `Tile::raw_byte`. -/
def Tile.raw_byte (t : Tile) (index : Nat) : Nat :=
  t.raw_data index

/-- `Tile::update_raw_byte` (the cache recomputation is implicit). -/
def Tile.update_raw_byte (t : Tile) (index byte : Nat) : Tile :=
  { raw_data := fun i => if i = index then byte else t.raw_data i }

/-- The decoded color grid maintained by `Tile::cache`: for row `y` and
column `x`, bit `7 - x` of raw byte `2y` is color bit 0 and the same bit
of raw byte `2y + 1` is color bit 1. -/
def Tile.data (t : Tile) (y x : Nat) : Nat :=
  (((t.raw_data (y * 2 + 1) >>> (7 - x)) &&& 0x01) <<< 1) |||
    ((t.raw_data (y * 2) >>> (7 - x)) &&& 0x01)

/-- A fresh all-zero tile (`Tile::new([0x00; 16])`). -/
def Tile.zero : Tile := { raw_data := fun _ => 0 }

/-- The four monochrome shades as RGB (`PALETTE_CLASSIC_RGB`); shade
values are 2-bit by construction. -/
def PALETTE_CLASSIC_RGB (shade : Nat) : RGB :=
  if shade = 0 then { r := 255, g := 255, b := 255 }
  else if shade = 1 then { r := 192, g := 192, b := 192 }
  else if shade = 2 then { r := 96, g := 96, b := 96 }
  else { r := 0, g := 0, b := 0 }

/-- A classic-mode palette byte with its four decoded 2-bit shades. -/
structure PaletteClassic where
  raw : Nat
  shade0 : Nat
  shade1 : Nat
  shade2 : Nat
  shade3 : Nat
deriving Repr, DecidableEq

/-- `PaletteClassic::new`: raw 0xFF, all four colors White. -/
def PaletteClassic.new : PaletteClassic :=
  { raw := 0xFF, shade0 := 0, shade1 := 0, shade2 := 0, shade3 := 0 }

/-- `PaletteClassic::set`: store the raw byte and decode the four 2-bit
shade fields. -/
def PaletteClassic.set (p : PaletteClassic) (value : Nat) : PaletteClassic :=
  { raw := value,
    shade0 := value &&& 0b11,
    shade1 := (value >>> 2) &&& 0b11,
    shade2 := (value >>> 4) &&& 0b11,
    shade3 := (value >>> 6) &&& 0b11 }

/-- `PaletteClassic::data` indexed at a 2-bit color number. -/
def PaletteClassic.data (p : PaletteClassic) (i : Nat) : Nat :=
  if i = 0 then p.shade0
  else if i = 1 then p.shade1
  else if i = 2 then p.shade2
  else p.shade3

/-- The four GPU operating modes, with the STAT discriminants 0-3. -/
inductive GpuMode where
  | H_Blank
  | V_Blank
  | OAM_Read
  | VRAM_Read
deriving Repr, DecidableEq

/-- The `mode as u8` discriminant written into STAT bits 0-1. -/
def GpuMode.toNat : GpuMode → Nat
  | .H_Blank => 0
  | .V_Blank => 1
  | .OAM_Read => 2
  | .VRAM_Read => 3

/-- Screen width in pixels. -/
def SCREEN_W : Nat := 160
/-- Screen height in pixels. -/
def SCREEN_H : Nat := 144

/-- H-Blank duration. -/
def H_BLANK_CYCLES : Nat := 204
/-- V-Blank line duration. -/
def V_BLANK_CYCLES : Nat := 456
/-- OAM-read duration. -/
def OAM_READ_CYCLES : Nat := 80
/-- VRAM-read duration. -/
def VRAM_READ_CYCLES : Nat := 172

/-- `LcdControl::is_set` for bit `b` of the LCDC register. Bit numbers
follow the Rust enum: 0 BgDisplayEnable, 1 ObjDisplayEnable, 2 ObjSize,
3 BgTileMapDisplaySelect, 4 BgWindowTileDataSelect, 5 WindowDisplayEnable,
6 WindowTileMapDisplaySelect, 7 LcdDisplayEnable. -/
def lcdControlIsSet (b register : Nat) : Bool :=
  (register >>> b) &&& 0x01 = 0x01

/-- `LcdControllerInterruptStatus::is_set` for bit `b` of STAT (3 HBlank,
4 VBlank, 5 Oam, 6 LyCoincidence). -/
def lcdcStatusIsSet (b register : Nat) : Bool :=
  (register >>> b) &&& 0x01 = 0x01

/-- `LcdControllerInterruptStatus::with_mode`: install the mode
discriminant in STAT bits 0-1. -/
def lcdcStatusWithMode (register : Nat) (mode : GpuMode) : Nat :=
  (register &&& 0xFC) ||| mode.toNat

/-- `LcdControllerInterruptStatus::with_coincidence_flag`: set or clear
STAT bit 2. -/
def lcdcStatusWithCoincidence (register : Nat) (coincidence : Bool) : Nat :=
  (register &&& 0xFB) ||| (if coincidence then 0x04 else 0x00)

/-- The GPU state (classic mode; the `cgb_mode`/`cgb_data` fields are
fixed to false/None and omitted). `tileset` is the 384-entry tile table,
`tilemaps0`/`tilemaps1` the two 1024-byte tilemaps, `frame_buffer` the
160x144 pixel array, all modelled as index functions. -/
structure Gpu where
  mode : GpuMode
  mode_clock : Nat
  lcd_control : Nat
  lcdc_status : Nat
  ly : Nat
  lyc : Nat
  scroll_x : Nat
  scroll_y : Nat
  window_x : Nat
  window_y : Nat
  frame_buffer : Nat → RGB
  bg_palette : PaletteClassic
  ob_palette0 : PaletteClassic
  ob_palette1 : PaletteClassic
  tileset : Nat → Tile
  tilemaps0 : Nat → Nat
  tilemaps1 : Nat → Nat
  dirty : Bool

/-- `Gpu::new(false)`: H-Blank mode, everything zeroed, a white frame
buffer, and the frame marked dirty. -/
def Gpu.new : Gpu :=
  { mode := .H_Blank, mode_clock := 0, lcd_control := 0, lcdc_status := 0,
    ly := 0, lyc := 0, scroll_x := 0, scroll_y := 0,
    window_x := 0, window_y := 0,
    frame_buffer := fun _ => { r := 255, g := 255, b := 255 },
    bg_palette := PaletteClassic.new,
    ob_palette0 := PaletteClassic.new, ob_palette1 := PaletteClassic.new,
    tileset := fun _ => Tile.zero,
    tilemaps0 := fun _ => 0, tilemaps1 := fun _ => 0,
    dirty := true }

/-- `Gpu::get_tile`: fetch the tilemap entry at background coordinates
(`x`, `y`) and resolve it to a tileset slot: the entry itself when LCDC
bit 4 (BgWindowTileDataSelect) is set, `256 + entry` otherwise. The
source then asserts the slot is within the 384-entry tileset and indexes
it; an out-of-range slot is a panic, modelled as `none`. -/
def Gpu.get_tile (g : Gpu) (x y : Nat) (tilemap_2 : Bool) : Option Tile :=
  let index := (y / 8) * 32 + x / 8
  let tile_index := if tilemap_2 then g.tilemaps1 index else g.tilemaps0 index
  let tileset_index :=
    if lcdControlIsSet 4 g.lcd_control then tile_index
    else 256 + tile_index
  if tileset_index < 384 then some (g.tileset tileset_index) else none

/-- One background pixel of `Gpu::render_line_tiles`: resolve the tile at
the scrolled coordinates, read its 2-bit color, translate it through the
background palette and store the RGB value in the frame buffer. -/
def Gpu.render_tile_pixel (g : Gpu) (tilemap_2 : Bool) (y x : Nat)
    (fb : Nat → RGB) : Option (Nat → RGB) := do
  let bx := (g.scroll_x + x) % 256
  let by_ := (g.scroll_y + y) % 256
  let tile ← g.get_tile bx by_ tilemap_2
  let color_index := tile.data (by_ % 8) (bx % 8)
  let shade := g.bg_palette.data color_index
  let idx := y * SCREEN_W + x
  some (fun i => if i = idx then PALETTE_CLASSIC_RGB shade else fb i)

/-- `Gpu::render_line_tiles`: the background pass over x in 0..160 when
LCDC bit 0 is set, then the window pass from `max(window_x - 7, 0)` when
LCDC bit 5 is set. Only the frame buffer changes. -/
def Gpu.render_line_tiles (g : Gpu) (y : Nat) : Option (Nat → RGB) := do
  let fb ←
    if lcdControlIsSet 0 g.lcd_control then
      (List.range SCREEN_W).foldlM
        (fun fb x => g.render_tile_pixel (lcdControlIsSet 3 g.lcd_control) y x fb)
        g.frame_buffer
    else some g.frame_buffer
  if lcdControlIsSet 5 g.lcd_control then
    let x_start := g.window_x - 7
    (List.range' x_start (SCREEN_W - x_start)).foldlM
      (fun fb x => g.render_tile_pixel (lcdControlIsSet 6 g.lcd_control) y x fb)
      fb
  else some fb

/-- `Gpu::render_scanline`: render the tile layers into the frame buffer
(`render_line_sprites` is a stub that only tests LCDC bit 1 and changes
nothing). -/
def Gpu.render_scanline (g : Gpu) : Option Gpu :=
  (g.render_line_tiles g.ly).map (fun fb => { g with frame_buffer := fb })

/-- `Gpu::switch_mode`: install the new mode and its STAT discriminant. -/
def Gpu.switch_mode (g : Gpu) (new_mode : GpuMode) : Gpu :=
  { g with lcdc_status := lcdcStatusWithMode g.lcdc_status new_mode,
           mode := new_mode }

/-- The guarded `match self.mode` block of `Gpu::step`, applied after the
elapsed ticks have been added to `mode_clock`. Returns the new state and
the mask of interrupts requested through the IRQ handler. -/
def Gpu.step_transition (g : Gpu) : Option (Gpu × Nat) :=
  match g.mode with
  | .OAM_Read =>
    if g.mode_clock ≥ OAM_READ_CYCLES then
      let g := { g with mode_clock := g.mode_clock - OAM_READ_CYCLES }
      some (g.switch_mode .VRAM_Read, 0)
    else some (g, 0)
  | .VRAM_Read =>
    if g.mode_clock ≥ VRAM_READ_CYCLES then
      let g := { g with mode_clock := g.mode_clock - VRAM_READ_CYCLES }
      match g.render_scanline with
      | none => none
      | some g =>
        let g := g.switch_mode .H_Blank
        let irqs := if lcdcStatusIsSet 3 g.lcdc_status
          then Interrupt.LCD_Stat.mask else 0
        some (g, irqs)
    else some (g, 0)
  | .H_Blank =>
    if g.mode_clock ≥ H_BLANK_CYCLES then
      let g := { g with mode_clock := g.mode_clock - H_BLANK_CYCLES,
                        ly := g.ly + 1 }
      if g.ly = SCREEN_H then
        let g := { g.switch_mode .V_Blank with dirty := true }
        let irqs := Interrupt.V_Blank.mask |||
          (if lcdcStatusIsSet 4 g.lcdc_status then Interrupt.LCD_Stat.mask else 0)
        some (g, irqs)
      else
        let g := g.switch_mode .OAM_Read
        let irqs := if lcdcStatusIsSet 5 g.lcdc_status
          then Interrupt.LCD_Stat.mask else 0
        some (g, irqs)
    else some (g, 0)
  | .V_Blank =>
    if g.mode_clock ≥ V_BLANK_CYCLES then
      let g := { g with mode_clock := g.mode_clock - V_BLANK_CYCLES,
                        ly := g.ly + 1 }
      if g.ly = SCREEN_H + 10 then
        let g := ({ g with ly := 0 }).switch_mode .OAM_Read
        let irqs := if lcdcStatusIsSet 5 g.lcdc_status
          then Interrupt.LCD_Stat.mask else 0
        some (g, irqs)
      else some (g, 0)
    else some (g, 0)

/-- The trailing LYC/LY comparison of `Gpu::step`: update STAT bit 2 and
possibly request an LCD-Stat interrupt. -/
def Gpu.lyc_compare (g : Gpu) : Gpu × Nat :=
  if g.lyc = g.ly then
    let g := { g with lcdc_status := lcdcStatusWithCoincidence g.lcdc_status true }
    if lcdcStatusIsSet 6 g.lcdc_status then (g, Interrupt.LCD_Stat.mask)
    else (g, 0)
  else
    ({ g with lcdc_status := lcdcStatusWithCoincidence g.lcdc_status false }, 0)

/-- `Gpu::step`: a no-op when LCDC bit 7 (display enable) is clear;
otherwise accumulate the ticks, run at most one mode transition, then the
LYC comparison. The second component is the mask of requested
interrupts. -/
def Gpu.step (g : Gpu) (ticks : Nat) : Option (Gpu × Nat) :=
  if !lcdControlIsSet 7 g.lcd_control then some (g, 0)
  else
    let g := { g with mode_clock := g.mode_clock + ticks }
    match g.step_transition with
    | none => none
    | some (g, irqs1) =>
      let r := g.lyc_compare
      some (r.1, irqs1 ||| r.2)

/-- `Gpu::read_byte` in classic mode (value-only: no state is mutated on
the non-CGB read paths). Register constants are those of
src/gpu/registers.rs. Unmapped addresses read 0. -/
def Gpu.read_byte (g : Gpu) (address : Nat) : Nat :=
  if 0x8000 ≤ address ∧ address ≤ 0x97FF then
    let addr := address - 0x8000
    (g.tileset (addr / 16)).raw_byte (addr % 16)
  else if 0x9800 ≤ address ∧ address ≤ 0x9BFF then g.tilemaps0 (address - 0x9800)
  else if 0x9C00 ≤ address ∧ address ≤ 0x9FFF then g.tilemaps1 (address - 0x9C00)
  else if address = 0xFF40 then g.lcd_control
  else if address = 0xFF41 then g.lcdc_status
  else if address = 0xFF42 then g.scroll_y
  else if address = 0xFF43 then g.scroll_x
  else if address = 0xFF44 then g.ly
  else if address = 0xFF45 then g.lyc
  else if address = 0xFF47 then g.bg_palette.raw
  else if address = 0xFF48 then g.ob_palette0.raw
  else if address = 0xFF49 then g.ob_palette1.raw
  else if address = 0xFF4A then g.window_y
  else if address = 0xFF4B then g.window_x
  else 0

/-- `Gpu::write_byte` in classic mode. STAT writes preserve the read-only
low three bits; LY writes reset LY to 0 regardless of the value. Unmapped
addresses drop the write. -/
def Gpu.write_byte (g : Gpu) (address byte : Nat) : Gpu :=
  if 0x8000 ≤ address ∧ address ≤ 0x97FF then
    let addr := address - 0x8000
    let idx := addr / 16
    { g with tileset := fun i =>
        if i = idx then (g.tileset idx).update_raw_byte (addr % 16) byte
        else g.tileset i }
  else if 0x9800 ≤ address ∧ address ≤ 0x9BFF then
    { g with tilemaps0 := fun i =>
        if i = address - 0x9800 then byte else g.tilemaps0 i }
  else if 0x9C00 ≤ address ∧ address ≤ 0x9FFF then
    { g with tilemaps1 := fun i =>
        if i = address - 0x9C00 then byte else g.tilemaps1 i }
  else if address = 0xFF40 then { g with lcd_control := byte }
  else if address = 0xFF41 then
    { g with lcdc_status := (byte &&& 0xF8) ||| (g.lcdc_status &&& 0x07) }
  else if address = 0xFF42 then { g with scroll_y := byte }
  else if address = 0xFF43 then { g with scroll_x := byte }
  else if address = 0xFF44 then { g with ly := 0 }
  else if address = 0xFF45 then { g with lyc := byte }
  else if address = 0xFF47 then { g with bg_palette := g.bg_palette.set byte }
  else if address = 0xFF48 then { g with ob_palette0 := g.ob_palette0.set byte }
  else if address = 0xFF49 then { g with ob_palette1 := g.ob_palette1.set byte }
  else if address = 0xFF4A then { g with window_y := byte }
  else if address = 0xFF4B then { g with window_x := byte }
  else g

/-- `Gpu::screen_data`: the frame buffer contents. -/
def Gpu.screen_data (g : Gpu) : Nat → RGB :=
  g.frame_buffer

/-! ## Joypad (src/joypad.rs) -/

/-- The joypad: a 2x4 key matrix (0 = pressed) and the selected row
(0 = none, 1 = directions, 2 = buttons). -/
structure Joypad where
  rows0 : Nat
  rows1 : Nat
  selection : Nat
deriving Repr, DecidableEq

/-- `Joypad::default`: no key pressed, no row selected. -/
def Joypad.default : Joypad :=
  { rows0 := 0x0F, rows1 := 0x0F, selection := 0 }

/-- `Joypad::read_byte` at 0xFF00: the selected row, or 0 when none; any
other selection value is `unreachable!`. -/
def Joypad.read_byte (j : Joypad) : Option Nat :=
  if j.selection = 0 then some 0
  else if j.selection = 1 then some j.rows0
  else if j.selection = 2 then some j.rows1
  else none

/-- `Joypad::write_byte` at 0xFF00: decode bits 4-5 into the row
selection (`byte & 0x30` can only take the four listed values). -/
def Joypad.write_byte (j : Joypad) (byte : Nat) : Option Joypad :=
  let v := byte &&& 0x30
  if v = 0x10 then some { j with selection := 1 }
  else if v = 0x20 then some { j with selection := 2 }
  else if v = 0x30 then some { j with selection := 0 }
  else if v = 0x00 then some { j with selection := 0 }
  else none

/-! ## Serial port (src/serial.rs)

The transfer callback only observes bytes (it is invoked when 0x81 is
written to the control register) and never alters the serial state, so it
is not part of the state. -/

/-- The serial port data and control registers. -/
structure Serial where
  data : Nat
  control : Nat
deriving Repr, DecidableEq

/-- `Serial::new`. -/
def Serial.new : Serial := { data := 0, control := 0 }

/-! ## MBC dispatch (src/mbc/mod.rs)

`Box<dyn MBC>` holds either mapper implementation. -/

/-- The dynamic MBC value owned by the MMU. -/
inductive MBCState where
  | m0 : MBC0 → MBCState
  | m1 : MBC1 → MBCState

/-- Virtual dispatch of `MBC::rom_read`. -/
def MBCState.rom_read : MBCState → Nat → Nat
  | .m0 m, address => m.rom_read address
  | .m1 m, address => m.rom_read address

/-- Virtual dispatch of `MBC::ram_read`. -/
def MBCState.ram_read : MBCState → Nat → Nat
  | .m0 m, address => m.ram_read address
  | .m1 m, address => m.ram_read address

/-- Virtual dispatch of `MBC::rom_control` (MBC0 ignores the write). -/
def MBCState.rom_control : MBCState → Nat → Nat → Option MBCState
  | .m0 m, _, _ => some (.m0 m)
  | .m1 m, address, value => (m.rom_control address value).map .m1

/-- Virtual dispatch of `MBC::ram_write`. -/
def MBCState.ram_write : MBCState → Nat → Nat → MBCState
  | .m0 m, address, value => .m0 (m.ram_write address value)
  | .m1 m, address, value => .m1 (m.ram_write address value)

/-! ## MMU bus (src/mmu.rs)

The `MachineIrqHandler` sub-component is inlined as the `ie_reg`/`if_reg`
fields. The APU is omitted as a field because both of its `Memory`
methods are `todo!()`: every access the MMU routes to it is a panic,
modelled as `none`. The embedding covers `cgb_mode == false`. -/

/-- The MMU state. -/
structure MMU where
  in_bios : Bool
  bios : Nat → Nat
  timers : Timers
  gpu : Gpu
  mbc : MBCState
  joypad : Joypad
  serial : Serial
  ie_reg : Nat
  if_reg : Nat
  wram : Nat → Nat
  zram : Nat → Nat

/-- `MMU::new`: fresh components, zeroed RAM, BIOS overlay active unless
skipped. -/
def MMU.new (mbc : MBCState) (bios : Nat → Nat) (skip_bios : Bool) : MMU :=
  { in_bios := !skip_bios, bios := bios, timers := Timers.default,
    gpu := Gpu.new, mbc := mbc, joypad := Joypad.default,
    serial := Serial.new, ie_reg := 0, if_reg := 0,
    wram := fun _ => 0, zram := fun _ => 0 }

/-- The non-BIOS routing of `MMU::read_byte` (every arm it dispatches to
is read-only on the classic paths, so only the value is returned; APU
accesses panic). Arms appear in the source's match order. -/
def MMU.read_byte_nobios (m : MMU) (address : Nat) : Option Nat :=
  if address ≤ 0x7FFF then some (m.mbc.rom_read address)
  else if address ≤ 0x9FFF then some (m.gpu.read_byte address)
  else if address ≤ 0xBFFF then some (m.mbc.ram_read address)
  else if address ≤ 0xFDFF then some (m.wram (address &&& 0x1FFF))
  else if address ≤ 0xFE9F then some (m.gpu.read_byte address)
  else if address ≤ 0xFEFF then some 0
  else if address = 0xFF00 then m.joypad.read_byte
  else if address = 0xFF01 then some m.serial.data
  else if address = 0xFF02 then some m.serial.control
  else if 0xFF04 ≤ address ∧ address ≤ 0xFF07 then m.timers.read_byte address
  else if 0xFF10 ≤ address ∧ address ≤ 0xFF14 then none
  else if 0xFF16 ≤ address ∧ address ≤ 0xFF26 then none
  else if 0xFF30 ≤ address ∧ address ≤ 0xFF3F then none
  else if address = 0xFF0F then some m.if_reg
  else if 0xFF40 ≤ address ∧ address ≤ 0xFF4F then some (m.gpu.read_byte address)
  else if 0xFF68 ≤ address ∧ address ≤ 0xFF6B then some (m.gpu.read_byte address)
  else if 0xFF80 ≤ address ∧ address ≤ 0xFFFE then some (m.zram (address &&& 0x7F))
  else if address = 0xFFFF then some m.ie_reg
  else some 0

/-- `MMU::read_byte`: while the BIOS flag is set, addresses below 0x100
read the BIOS image; an address of exactly 0x100 clears the flag and
falls through to the normal routing, and any higher address takes the
BIOS-overflow branch, which also clears the flag and re-reads. -/
def MMU.read_byte (m : MMU) (address : Nat) : Option (MMU × Nat) :=
  if m.in_bios then
    if address < 0x100 then some (m, m.bios address)
    else
      let m := { m with in_bios := false }
      (m.read_byte_nobios address).map (fun v => (m, v))
  else (m.read_byte_nobios address).map (fun v => (m, v))

/-- `MMU::write_byte`: route the store by address (the source's match
order); APU stores panic. Writes below 0x8000 reach the MBC control
registers regardless of the BIOS flag. For a serial control write of
0x81 the source additionally passes the data byte to the external
callback, which does not alter the state. -/
def MMU.write_byte (m : MMU) (address byte : Nat) : Option MMU :=
  if address ≤ 0x7FFF then
    (m.mbc.rom_control address byte).map (fun mbc => { m with mbc := mbc })
  else if address ≤ 0x9FFF then some { m with gpu := m.gpu.write_byte address byte }
  else if address ≤ 0xBFFF then some { m with mbc := m.mbc.ram_write address byte }
  else if address ≤ 0xFDFF then
    some { m with wram := fun i =>
      if i = address &&& 0x1FFF then byte else m.wram i }
  else if address ≤ 0xFE9F then some { m with gpu := m.gpu.write_byte address byte }
  else if address ≤ 0xFEFF then some m
  else if address = 0xFF00 then
    (m.joypad.write_byte byte).map (fun j => { m with joypad := j })
  else if address = 0xFF01 then some { m with serial := { m.serial with data := byte } }
  else if address = 0xFF02 then
    some { m with serial := { m.serial with control := byte } }
  else if 0xFF04 ≤ address ∧ address ≤ 0xFF07 then
    (m.timers.write_byte address byte).map (fun t => { m with timers := t })
  else if 0xFF10 ≤ address ∧ address ≤ 0xFF14 then none
  else if 0xFF16 ≤ address ∧ address ≤ 0xFF26 then none
  else if 0xFF30 ≤ address ∧ address ≤ 0xFF3F then none
  else if address = 0xFF0F then some { m with if_reg := byte }
  else if 0xFF40 ≤ address ∧ address ≤ 0xFF4F then
    some { m with gpu := m.gpu.write_byte address byte }
  else if 0xFF68 ≤ address ∧ address ≤ 0xFF6B then
    some { m with gpu := m.gpu.write_byte address byte }
  else if 0xFF80 ≤ address ∧ address ≤ 0xFFFE then
    some { m with zram := fun i =>
      if i = address &&& 0x7F then byte else m.zram i }
  else if address = 0xFFFF then some { m with ie_reg := byte }
  else some m

/-- `MMU::step`: pump the elapsed cycles into the timers and the GPU;
both may request interrupts, which are ORed into IF by the
`MachineIrqHandler`. -/
def MMU.step (m : MMU) (ticks : Nat) : Option MMU :=
  let tr := m.timers.cycle ticks
  let m := { m with timers := tr.1, if_reg := m.if_reg ||| tr.2 }
  (m.gpu.step ticks).map
    (fun gr => { m with gpu := gr.1, if_reg := m.if_reg ||| gr.2 })

/-- `MMU::frame_buffer`: when the GPU frame is dirty, clear the dirty
flag and hand out the screen data; otherwise `None`. -/
def MMU.frame_buffer (m : MMU) : Option (Nat → RGB) × MMU :=
  if m.gpu.dirty then
    (some m.gpu.screen_data, { m with gpu := { m.gpu with dirty := false } })
  else (none, m)

/-- Write a byte and then read the same address back, yielding the byte
the read returns (used to state the RAM round-trip law). -/
def MMU.write_read (m : MMU) (address b : Nat) : Option Nat :=
  (m.write_byte address b).bind (fun m2 => (m2.read_byte address).map (fun p => p.2))

/-! ## Concrete fixtures for the closed evaluation theorems -/

/-- A fresh MBC1 cartridge state: zeroed ROM/RAM, bank 1 selected, RAM
disabled, ROM mode (the `MBC1::new` register values). -/
def mbc1Fresh : MBC1 :=
  { rom := fun _ => 0, ram := fun _ => 0, rom_bank := 0x01, ram_bank := 0x00,
    ram_enabled := false, ram_mode := false }

/-- An MBC0 cartridge with its 8 KiB external RAM present and zeroed. -/
def mbc0WithRam : MBC0 :=
  { rom := fun _ => 0, eram_present := true, eram := fun _ => 0 }

/-- A CPU over the test-harness memory, initialized as `Cpu::new` leaves
it (IME enabled) with PC = 0x1234, SP = 0xFFF0, and a memory holding
IE = 0x03 and IF = 0x03 (V-Blank and LCD-Stat both enabled and
pending). -/
def cpuTwoPending : Cpu (Nat → Nat) :=
  { cycles := 0, halted := false,
    regs := { Registers.new with pc := 0x1234, sp := 0xFFF0 },
    mem := fun a => if a = 0xFFFF then 0x03 else if a = 0xFF0F then 0x03 else 0,
    ime := true, if_reg_before_halt := 0, opcode := 0 }

/-- A CPU about to run `ADD A, B` with A = 0x80, B = 0x80 and the N flag
set beforehand (the setup of the repository's own `test_ADD_r_b` case). -/
def cpuAdd80 : Cpu Unit :=
  { cycles := 0, halted := false,
    regs := { Registers.new with a := 0x80, b := 0x80, f := N_FLAG },
    mem := (), ime := true, if_reg_before_halt := 0, opcode := 0 }

/-- A GPU whose first background tilemap entry is 0x80 and whose LCDC has
bit 4 (BgWindowTileDataSelect) clear. -/
def gpuTile80 : Gpu :=
  { Gpu.new with tilemaps0 := fun i => if i = 0 then 0x80 else 0 }

/-- A freshly constructed MMU (BIOS overlay active, MBC1 cartridge,
arbitrary BIOS contents). -/
def mmuFresh : MMU :=
  MMU.new (.m1 mbc1Fresh) (fun a => (a + 3) % 256) false

/-- A freshly constructed MMU with an MBC0 cartridge that has its 8 KiB
external RAM present. -/
def mmuMbc0 : MMU :=
  MMU.new (.m0 mbc0WithRam) (fun _ => 0) true

/-- A freshly constructed MMU with an MBC1 cartridge whose external RAM
has been enabled. -/
def mmuMbc1Ram : MMU :=
  MMU.new (.m1 { mbc1Fresh with ram_enabled := true }) (fun _ => 0) true

/-- The timer block of the specification's overflow scenario: TAC = 0x05
(enabled, period 16), TMA = 0x42, TIMA = 0xFE. -/
def timersOverflow : Timers :=
  { Timers.default with
    control := 0x05,
    counter := 0xFE,
    modulo := 0x42,
    modulo_clock_period := 16,
    modulo_clock_counter := 0 }

/-! ## C10: default word accessors and the 0xFFFF edge -/

/-- C10: for every `Memory` implementation relying on the default
`read_word`/`write_word`, the accessors are total at addresses up to
0xFFFE (the `address + 1` they evaluate stays a valid `u16`), and a word
access at 0xFFFF leaves the 16-bit range (the out-of-range branch),
modelled as `none`. -/
theorem memory_word_access_total_iff_below_top {σ : Type} (M : MemoryOps σ)
    (s : σ) (address word : Nat) (h : address ≤ 0xFFFE) :
    (M.read_word s address).isSome = true ∧
    (M.write_word s address word).isSome = true ∧
    (M.read_word s 0xFFFF).isNone = true ∧
    (M.write_word s 0xFFFF word).isNone = true := by
  refine ⟨?_, ?_, ?_, ?_⟩ <;>
    simp only [MemoryOps.read_word, MemoryOps.write_word] <;>
    first
      | (rw [if_pos (by omega)]; rfl)
      | (rw [if_neg (by omega)]; rfl)

/-- Witness for C10 at a concrete memory, address and state. -/
theorem memory_word_access_total_iff_below_top_witness :
    (testMemoryOps.read_word (fun _ => 0) 0x1234).isSome = true ∧
    (testMemoryOps.write_word (fun _ => 0) 0x1234 0xBEEF).isSome = true ∧
    (testMemoryOps.read_word (fun _ => 0) 0xFFFF).isNone = true ∧
    (testMemoryOps.write_word (fun _ => 0) 0xFFFF 0xBEEF).isNone = true :=
  memory_word_access_total_iff_below_top testMemoryOps (fun _ => 0) 0x1234 0xBEEF
    (by decide)

/-! ## C3: the ADD zero flag -/

/-- C3 (code bug): executing `ADD A, B` with A = B = 0x80 leaves
A = 0x00 (the 8-bit result wraps to zero) and the carry flag set, yet the
zero flag stays clear, because `Cpu::alu_add` tests the un-truncated
16-bit sum `r == 0x0`. The claim (and the repository's own
`test_ADD_r_b` case, which expects `f == Z_FLAG | C_FLAG` here) requires
the Z flag to be set exactly when the 8-bit result is zero. -/
theorem alu_add_zero_flag_from_16bit_sum :
    (Cpu.ADD_r_b cpuAdd80).1.regs.a = 0x00 ∧
    (Cpu.ADD_r_b cpuAdd80).1.regs.flag Z_FLAG = false ∧
    (Cpu.ADD_r_b cpuAdd80).1.regs.flag C_FLAG = true ∧
    (Cpu.ADD_r_b cpuAdd80).1.regs.flag N_FLAG = false ∧
    (Cpu.ADD_r_b cpuAdd80).1.regs.flag H_FLAG = false ∧
    (Cpu.ADD_r_b cpuAdd80).2 = 1 := by
  decide

/-! ## C2: the MBC1 bank-select band 0x2000-0x3FFF -/

/-- C2 (code bug): `MBC1::rom_control` in the 0x2000-0x3FFF band derives
the new low bank bits from `address & 0x1F`, not from the written value.
Writing value 0x12 at address 0x2000 leaves the bank at 0x01 (the address
low bits are 0, promoted to 1) although the claim requires bank 0x12, and
writing value 0x00 at address 0x2012 sets bank 0x12 although the claim
requires the value-0 write to select bank 1. -/
theorem mbc1_bank_select_uses_address_not_value :
    (mbc1Fresh.rom_control 0x2000 0x12).map (fun m => m.rom_bank) = some 0x01 ∧
    (mbc1Fresh.rom_control 0x2012 0x00).map (fun m => m.rom_bank) = some 0x12 := by
  decide

/-! ## C8: tileset index resolution in Gpu::get_tile -/

/-- C8 (code bug): with LCDC bit 4 clear, `Gpu::get_tile` computes the
tileset slot as `256 + entry` with no signed reinterpretation, so a
tilemap entry of 0x80 yields slot 384, outside the 384-entry tileset (the
source's own `debug_assert` fails and the array index panics, modelled as
`none`); the claim requires the signed slot `256 + (-128) = 128`. With
bit 4 set the same entry resolves in bounds. -/
theorem get_tile_unsigned_index_overflow :
    gpuTile80.get_tile 0 0 false = none ∧
    (Gpu.get_tile { gpuTile80 with lcd_control := 0x10 } 0 0 false).isSome = true := by
  constructor
  · rfl
  · rfl

/-! ## C1: interrupt dispatch services every pending line -/

/-- C1 (code bug): one call to the interrupt dispatcher with IME set and
`IE = IF = 0x03` services both pending lines instead of only V-Blank: the
loop in `Cpu::handle_interrupt` has no early exit, so it pushes PC twice
(the V-Blank vector 0x40 ends up on the stack), leaves PC at the LCD-Stat
vector 0x48, and its last IF write `interrupts & !(1 << 1)` re-marks the
already-serviced V-Blank bit, leaving IF = 0x01. The claim requires
PC = 0x40, IF = 0x02 and a single push (SP = 0xFFEE). -/
theorem handle_interrupt_services_all_pending :
    (Cpu.handle_interrupt testMemoryOps cpuTwoPending).map
      (fun p => (p.1.regs.pc, p.1.regs.sp, p.1.mem 0xFF0F, p.1.mem 0xFFEC,
                 p.1.ime)) =
      some (0x48, 0xFFEC, 0x01, 0x40, false) := by
  decide

/-! ## C9: frame_buffer hand-out discipline -/

/-- C9 (counterexample): on a freshly constructed MMU, before any frame
has completed (indeed before any `step` at all), `MMU::frame_buffer`
already returns `Some`, because `Gpu::new` initializes `dirty` to true;
the claim asserts no `Some` is returned before the first completed
frame. -/
theorem frame_buffer_some_before_first_frame :
    (mmuFresh.frame_buffer).1.isSome = true := by
  rfl

/-! ## C4: the BIOS overlay flag -/

/-- C4 (counterexample): with the BIOS flag set, a read of address
0x0200 — not 0x0100 — also clears the flag (the BIOS-overflow branch of
`MMU::read_byte`), refuting the claim that no read of an address other
than 0x0100 clears it. -/
theorem bios_flag_cleared_by_read_of_0x0200 :
    (mmuFresh.read_byte 0x0200).map (fun p => p.1.in_bios) = some false := by
  rfl

/-- Helper: the non-BIOS routing never depends on the BIOS flag. -/
theorem read_byte_nobios_in_bios_irrel (m : MMU) (v : Bool) (address : Nat) :
    MMU.read_byte_nobios { m with in_bios := v } address =
      m.read_byte_nobios address :=
  rfl

/-- C4 (amended): while the BIOS flag is set, a read below 0x0100 returns
the BIOS byte and leaves the MMU (in particular the flag) unchanged; the
flag is cleared exactly once, by the first read of any address at or
above 0x0100 (0x0100 being the documented exit and higher addresses the
BIOS-overflow recovery); once the flag is clear a read changes nothing,
so it is never set again. -/
theorem bios_overlay_clear_discipline (m : MMU) (address : Nat) :
    (m.in_bios = true → address < 0x100 →
      m.read_byte address = some (m, m.bios address)) ∧
    (m.in_bios = true → 0x100 ≤ address →
      ∀ m2 v, m.read_byte address = some (m2, v) → m2.in_bios = false) ∧
    (m.in_bios = false →
      ∀ m2 v, m.read_byte address = some (m2, v) → m2 = m) := by
  refine ⟨?_, ?_, ?_⟩
  · intro h1 h2
    simp [MMU.read_byte, h1, h2]
  · intro h1 h2 m2 v hread
    unfold MMU.read_byte at hread
    rw [if_pos h1, if_neg (by omega)] at hread
    rcases Option.map_eq_some'.mp hread with ⟨w, hw, heq⟩
    injection heq with ha hb
    rw [← ha]
  · intro h1 m2 v hread
    unfold MMU.read_byte at hread
    rw [if_neg (by simp [h1])] at hread
    rcases Option.map_eq_some'.mp hread with ⟨w, hw, heq⟩
    injection heq with ha hb
    rw [← ha]

/-- Witness for C4: on the fresh MMU a read of 0x0050 returns the BIOS
byte with the flag still set, and the successful read of 0x0100 yields a
state with the flag clear. -/
theorem bios_overlay_clear_discipline_witness :
    mmuFresh.read_byte 0x0050 = some (mmuFresh, mmuFresh.bios 0x0050) ∧
    ({ mmuFresh with in_bios := false } : MMU).in_bios = false :=
  ⟨(bios_overlay_clear_discipline mmuFresh 0x0050).1 rfl (by omega),
   (bios_overlay_clear_discipline mmuFresh 0x0100).2.1 (by rfl) (by omega)
     { mmuFresh with in_bios := false } 0 (by rfl)⟩

/-! ## C5: RAM write/read round trips -/

/-- Helper: reads of work RAM and its echo through the non-BIOS routing. -/
theorem read_byte_nobios_wram (m : MMU) (a : Nat) (h1 : 0xC000 ≤ a)
    (h2 : a ≤ 0xFDFF) :
    m.read_byte_nobios a = some (m.wram (a &&& 0x1FFF)) := by
  unfold MMU.read_byte_nobios
  rw [if_neg (by omega), if_neg (by omega), if_neg (by omega), if_pos (by omega)]

/-- Helper: reads of zero-page RAM through the non-BIOS routing. -/
theorem read_byte_nobios_zram (m : MMU) (a : Nat) (h1 : 0xFF80 ≤ a)
    (h2 : a ≤ 0xFFFE) :
    m.read_byte_nobios a = some (m.zram (a &&& 0x7F)) := by
  unfold MMU.read_byte_nobios
  repeat rw [if_neg (by omega)]
  rw [if_pos (by omega)]

/-- Helper: reads of the external-RAM window through the non-BIOS
routing. -/
theorem read_byte_nobios_eram (m : MMU) (a : Nat) (h1 : 0xA000 ≤ a)
    (h2 : a ≤ 0xBFFF) :
    m.read_byte_nobios a = some (m.mbc.ram_read a) := by
  unfold MMU.read_byte_nobios
  rw [if_neg (by omega), if_neg (by omega), if_pos (by omega)]

/-- Helper: at addresses from 0x0100 up, the byte `MMU::read_byte`
returns is the one the non-BIOS routing produces, whatever the BIOS
flag. -/
theorem read_byte_snd_above_100 (m : MMU) (a : Nat) (h : 0x100 ≤ a) :
    (m.read_byte a).map (fun p => p.2) = m.read_byte_nobios a := by
  unfold MMU.read_byte
  by_cases hib : m.in_bios
  · rw [if_pos hib, if_neg (by omega), Option.map_map,
      read_byte_nobios_in_bios_irrel]
    cases m.read_byte_nobios a <;> rfl
  · rw [if_neg hib, Option.map_map]
    cases m.read_byte_nobios a <;> rfl

/-- C5 (code bug): a write followed by a read of the same address returns
the written byte for work RAM and its echo, for zero-page RAM, and for
enabled MBC1 external RAM — but not for the MBC0 variant with its 8 KiB
RAM present: `MBC0::ram_write` stores into the temporary array copy that
`Option::unwrap` returns, so the write is lost and the read yields 0. -/
theorem ram_write_read_roundtrip :
    (∀ (m : MMU) (a b : Nat), 0xC000 ≤ a → a ≤ 0xFDFF → b ≤ 0xFF →
      m.write_read a b = some b) ∧
    (∀ (m : MMU) (a b : Nat), 0xFF80 ≤ a → a ≤ 0xFFFE → b ≤ 0xFF →
      m.write_read a b = some b) ∧
    (∀ (m : MMU) (mb : MBC1) (a b : Nat), m.mbc = .m1 mb →
      mb.ram_enabled = true → 0xA000 ≤ a → a ≤ 0xBFFF → b ≤ 0xFF →
      m.write_read a b = some b) ∧
    mmuMbc0.write_read 0xA000 0x42 = some 0x00 := by
  refine ⟨?_, ?_, ?_, ?_⟩
  · intro m a b h1 h2 _
    unfold MMU.write_read MMU.write_byte
    rw [if_neg (by omega), if_neg (by omega), if_neg (by omega),
      if_pos (by omega)]
    rw [Option.some_bind, read_byte_snd_above_100 _ _ (by omega),
      read_byte_nobios_wram _ _ h1 h2]
    simp
  · intro m a b h1 h2 _
    unfold MMU.write_read MMU.write_byte
    repeat rw [if_neg (by omega)]
    rw [if_pos (by omega)]
    rw [Option.some_bind, read_byte_snd_above_100 _ _ (by omega),
      read_byte_nobios_zram _ _ h1 h2]
    simp
  · intro m mb a b hmbc hen h1 h2 _
    unfold MMU.write_read MMU.write_byte
    rw [if_neg (by omega), if_neg (by omega), if_pos (by omega)]
    rw [Option.some_bind, read_byte_snd_above_100 _ _ (by omega),
      read_byte_nobios_eram _ _ h1 h2]
    simp only [hmbc, MBCState.ram_write, MBCState.ram_read]
    simp [MBC1.ram_write, MBC1.ram_read, hen]
  · rfl

/-- Witness for C5 at concrete addresses and MMUs. -/
theorem ram_write_read_roundtrip_witness :
    mmuFresh.write_read 0xC123 0xAB = some 0xAB ∧
    mmuFresh.write_read 0xFF90 0x7C = some 0x7C ∧
    mmuMbc1Ram.write_read 0xA010 0x5D = some 0x5D := by
  refine ⟨?_, ?_, ?_⟩
  · exact ram_write_read_roundtrip.1 mmuFresh 0xC123 0xAB (by omega) (by omega)
      (by omega)
  · exact ram_write_read_roundtrip.2.1 mmuFresh 0xFF90 0x7C (by omega) (by omega)
      (by omega)
  · exact ram_write_read_roundtrip.2.2.1 mmuMbc1Ram
      { mbc1Fresh with ram_enabled := true } 0xA010 0x5D rfl rfl (by omega)
      (by omega) (by omega)

/-! ## C6: TIMA increments, reloads and interrupts in Timers::cycle -/

/-- Helper: the counter component of the iterated specification step does
not depend on the latched interrupt flag. -/
theorem timaSpecStep_fst_flag (modulo : Nat) :
    ∀ (n c : Nat) (i : Bool),
      ((timaSpecStep modulo)^[n] (c, i)).1 = ((timaSpecStep modulo)^[n] (c, false)).1 := by
  intro n
  induction n with
  | zero => intro c i; rfl
  | succ k ih =>
    intro c i
    rw [Function.iterate_succ_apply, Function.iterate_succ_apply]
    by_cases hc : c = 0xFF
    · simp [timaSpecStep, hc]
    · simp only [timaSpecStep, if_neg hc]
      exact ih (c + 1) i

/-- Helper: once the interrupt flag is latched it stays latched. -/
theorem timaSpecStep_snd_true (modulo : Nat) :
    ∀ (n c : Nat), ((timaSpecStep modulo)^[n] (c, true)).2 = true := by
  intro n
  induction n with
  | zero => intro c; rfl
  | succ k ih =>
    intro c
    rw [Function.iterate_succ_apply]
    by_cases hc : c = 0xFF
    · simp only [timaSpecStep, if_pos hc]
      exact ih modulo
    · simp only [timaSpecStep, if_neg hc]
      exact ih (c + 1)

/-- Helper: the TIMA loop of `Timers::cycle` computes exactly the n-fold
iterate of the specification-level increment, both for the final counter
and for whether a Timer interrupt was requested. -/
theorem timaLoop_eq_iterate (modulo : Nat) (hm : modulo < 256) :
    ∀ (n c : Nat), c < 256 →
      timaLoop modulo n c = (timaSpecStep modulo)^[n] (c, false) := by
  intro n
  induction n with
  | zero => intro c hc; rfl
  | succ k ih =>
    intro c hc
    rw [Function.iterate_succ_apply]
    by_cases hc255 : c = 0xFF
    · subst hc255
      have h1 : timaLoop modulo (k + 1) 0xFF = ((timaLoop modulo k modulo).1, true) := by
        simp [timaLoop]
      have hstep : timaSpecStep modulo (0xFF, false) = (modulo, true) := by
        simp [timaSpecStep]
      rw [h1, hstep, ih modulo hm, Prod.ext_iff]
      exact ⟨(timaSpecStep_fst_flag modulo k modulo true).symm,
        (timaSpecStep_snd_true modulo k modulo).symm⟩
    · have hlt : c + 1 < 256 := by omega
      have hmod : (c + 1) % 256 = c + 1 := Nat.mod_eq_of_lt hlt
      have h1 : timaLoop modulo (k + 1) c = timaLoop modulo k (c + 1) := by
        simp only [timaLoop, hmod]
        rw [if_neg (by omega)]
      have hstep : timaSpecStep modulo (c, false) = (c + 1, false) := by
        simp [timaSpecStep, hc255]
      rw [h1, hstep, ih (c + 1) hlt]

/-- C6: within a single `Timers::cycle` call with TAC bit 2 set, TIMA
advances by exactly one specification-level increment per elapsed period
(possibly several when `ticks` spans several periods), where one
increment reloads TMA and latches a Timer interrupt exactly on a wrap
from 0xFF to 0x00; the Timer bit of the interrupts requested by the call
equals that latch, TMA is unchanged, and the prescaler keeps the
remainder. -/
theorem timers_cycle_tima_per_period (t : Timers) (ticks : Nat)
    (hen : t.control &&& 0x04 ≠ 0) (hc : t.counter < 256) (hm : t.modulo < 256) :
    (t.cycle ticks).1.counter =
      ((timaSpecStep t.modulo)^[(t.modulo_clock_counter + ticks) / t.modulo_clock_period]
        (t.counter, false)).1 ∧
    Nat.testBit (t.cycle ticks).2 2 =
      ((timaSpecStep t.modulo)^[(t.modulo_clock_counter + ticks) / t.modulo_clock_period]
        (t.counter, false)).2 ∧
    (t.cycle ticks).1.modulo = t.modulo ∧
    (t.cycle ticks).1.modulo_clock_counter =
      (t.modulo_clock_counter + ticks) % t.modulo_clock_period := by
  have hbranch : (t.control &&& 0x04 != 0) = true := by
    simp [bne_iff_ne, hen]
  simp only [Timers.cycle, timerClockUpdate, hbranch, if_true]
  simp only [timaLoop_eq_iterate t.modulo hm _ t.counter hc]
  refine ⟨trivial, ?_, trivial, trivial⟩
  cases hflag : ((timaSpecStep t.modulo)^[(t.modulo_clock_counter + ticks) / t.modulo_clock_period]
      (t.counter, false)).2
  · simp [hflag, Interrupt.mask]
  · simp only [hflag, Interrupt.mask, if_true]
    decide

/-- Witness for C6: the specification's timer-overflow scenario (TAC =
0x05 so the period is 16 cycles, TMA = 0x42, TIMA = 0xFE) advanced by 32
machine cycles: two increments, one wrap, TIMA reloaded to 0x42 and a
Timer interrupt requested. -/
theorem timers_cycle_tima_per_period_witness :
    (timersOverflow.cycle 32).1.counter = 0x42 ∧
    Nat.testBit (timersOverflow.cycle 32).2 2 = true :=
  ⟨(timers_cycle_tima_per_period timersOverflow 32 (by decide) (by decide)
      (by decide)).1.trans (by decide),
   (timers_cycle_tima_per_period timersOverflow 32 (by decide) (by decide)
      (by decide)).2.1.trans (by decide)⟩

/-! ## C7 and C9: the GPU frame state machine -/

/-- The LY/mode invariant of the GPU state machine: the current line is
always below 154 and the mode is V-Blank exactly on lines 144 and up. -/
def GpuInv (g : Gpu) : Prop :=
  g.ly < 154 ∧ (g.mode = GpuMode.V_Blank ↔ 144 ≤ g.ly)

/-- GPU states reachable from a fresh GPU (with any LCDC value installed
before the run) by a sequence of successful `step` calls. -/
inductive GpuReachable : Gpu → Prop where
  | init (c : Nat) : GpuReachable { Gpu.new with lcd_control := c }
  | step (g g2 : Gpu) (t r : Nat) :
      GpuReachable g → Gpu.step g t = some (g2, r) → GpuReachable g2

/-- Helper: the LYC/LY comparison changes neither LY, mode nor the dirty
flag, and never requests a V-Blank interrupt. -/
theorem lyc_compare_spec (g : Gpu) :
    g.lyc_compare.1.ly = g.ly ∧ g.lyc_compare.1.mode = g.mode ∧
    g.lyc_compare.1.dirty = g.dirty ∧ Nat.testBit g.lyc_compare.2 0 = false := by
  unfold Gpu.lyc_compare
  by_cases h : g.lyc = g.ly
  · rw [if_pos h]
    dsimp only
    split
    · refine ⟨rfl, rfl, rfl, ?_⟩
      show Nat.testBit Interrupt.LCD_Stat.mask 0 = false
      decide
    · refine ⟨rfl, rfl, rfl, ?_⟩
      show Nat.testBit 0 0 = false
      decide
  · rw [if_neg h]
    refine ⟨rfl, rfl, rfl, ?_⟩
    show Nat.testBit 0 0 = false
    decide

/-- Helper: rendering a scanline only touches the frame buffer. -/
theorem render_scanline_spec (g g2 : Gpu) (h : g.render_scanline = some g2) :
    g2.ly = g.ly ∧ g2.mode = g.mode ∧ g2.mode_clock = g.mode_clock ∧
    g2.dirty = g.dirty ∧ g2.lcdc_status = g.lcdc_status := by
  unfold Gpu.render_scanline at h
  cases hfb : g.render_line_tiles g.ly with
  | none => rw [hfb] at h; exact absurd h (by simp)
  | some fb =>
    rw [hfb, Option.map_some'] at h
    injection h with h2
    rw [← h2]
    exact ⟨rfl, rfl, rfl, rfl, rfl⟩

/-- Helper: a conditional LCD-Stat request never carries the V-Blank
bit. -/
theorem stat_request_testBit_zero (b : Prop) [Decidable b] :
    Nat.testBit (if b then Interrupt.LCD_Stat.mask else 0) 0 = false := by
  by_cases hb : b
  · rw [if_pos hb]; decide
  · rw [if_neg hb]; decide

/-- Helper: the V-Blank-entry request always carries the V-Blank bit. -/
theorem vblank_request_testBit_zero (b : Prop) [Decidable b] :
    Nat.testBit
      (Interrupt.V_Blank.mask ||| if b then Interrupt.LCD_Stat.mask else 0)
      0 = true := by
  by_cases hb : b
  · rw [if_pos hb]; decide
  · rw [if_neg hb]; decide

/-- Helper: what one guarded transition of the GPU state machine does to
LY, the mode, the dirty flag and the V-Blank request bit: the dirty flag
is set exactly when a V-Blank interrupt is requested, which (under the
LY/mode invariant) happens exactly on the LY 143 to 144 transition, and
the invariant is preserved. -/
theorem gpu_step_transition_spec (g g2 : Gpu) (r : Nat)
    (h : g.step_transition = some (g2, r)) :
    g2.dirty = (g.dirty || r.testBit 0) ∧
    ((g.mode = GpuMode.V_Blank ↔ 144 ≤ g.ly) →
      (r.testBit 0 = true ↔ (g.ly = 143 ∧ g2.ly = 144))) ∧
    (GpuInv g → GpuInv g2) := by
  obtain ⟨md, mc, lc, ls, ly0, lyc0, sx, sy, wx, wy, fb, bp, op0, op1, ts, tm0,
    tm1, dt⟩ := g
  cases md
  case H_Blank =>
    simp only [Gpu.step_transition, Gpu.switch_mode, SCREEN_H, H_BLANK_CYCLES,
      GpuMode.toNat] at h
    split at h
    · split at h
      · -- LY reached 144: V-Blank entry, dirty set, V-Blank requested
        rename_i hclk hly
        simp only [Option.some.injEq, Prod.mk.injEq] at h
        obtain ⟨hg2, hr⟩ := h
        subst hg2; subst hr
        refine ⟨?_, ?_, ?_⟩
        · rw [vblank_request_testBit_zero]
          simp
        · intro _
          rw [vblank_request_testBit_zero]
          dsimp only
          first | (simp; omega) | simp | omega
        · intro hinv
          dsimp only [GpuInv] at hinv ⊢
          refine ⟨by omega, ?_⟩
          first | (simp; omega) | simp | omega
      · -- LY below 144: move to the next visible line
        rename_i hclk hly
        simp only [Option.some.injEq, Prod.mk.injEq] at h
        obtain ⟨hg2, hr⟩ := h
        subst hg2; subst hr
        refine ⟨?_, ?_, ?_⟩
        · rw [stat_request_testBit_zero]
          simp
        · intro _
          rw [stat_request_testBit_zero]
          dsimp only
          first | (simp; omega) | simp | omega
        · intro hinv
          dsimp only [GpuInv] at hinv ⊢
          have h3 : ¬ (144 ≤ ly0) := fun hc => absurd (hinv.2.mpr hc) (by decide)
          refine ⟨by omega, ?_⟩
          first | (simp; omega) | simp | omega
    · -- guard not met
      rename_i hclk
      simp only [Option.some.injEq, Prod.mk.injEq] at h
      obtain ⟨hg2, hr⟩ := h
      subst hg2; subst hr
      refine ⟨by simp, ?_, ?_⟩
      · intro _
        dsimp only
        first | (simp; omega) | simp | omega
      · intro hinv
        exact hinv
  case V_Blank =>
    simp only [Gpu.step_transition, Gpu.switch_mode, SCREEN_H, V_BLANK_CYCLES,
      GpuMode.toNat] at h
    split at h
    · split at h
      · -- LY reached 154: wrap to line 0, back to OAM read
        rename_i hclk hly
        simp only [Option.some.injEq, Prod.mk.injEq] at h
        obtain ⟨hg2, hr⟩ := h
        subst hg2; subst hr
        refine ⟨?_, ?_, ?_⟩
        · rw [stat_request_testBit_zero]
          simp
        · intro hiff
          dsimp only at hiff
          have h1 : 144 ≤ ly0 := hiff.mp rfl
          rw [stat_request_testBit_zero]
          dsimp only
          first | (simp; omega) | simp | omega
        · intro hinv
          dsimp only [GpuInv] at hinv ⊢
          refine ⟨by omega, ?_⟩
          first | (simp; omega) | simp | omega
      · -- still inside V-Blank
        rename_i hclk hly
        simp only [Option.some.injEq, Prod.mk.injEq] at h
        obtain ⟨hg2, hr⟩ := h
        subst hg2; subst hr
        refine ⟨?_, ?_, ?_⟩
        · simp
        · intro hiff
          dsimp only at hiff
          have h1 : 144 ≤ ly0 := hiff.mp rfl
          dsimp only
          first | (simp; omega) | simp | omega
        · intro hinv
          dsimp only [GpuInv] at hinv ⊢
          have h1 : 144 ≤ ly0 := hinv.2.mp rfl
          refine ⟨by omega, ?_⟩
          first | (simp; omega) | simp | omega
    · rename_i hclk
      simp only [Option.some.injEq, Prod.mk.injEq] at h
      obtain ⟨hg2, hr⟩ := h
      subst hg2; subst hr
      refine ⟨by simp, ?_, ?_⟩
      · intro _
        dsimp only
        first | (simp; omega) | simp | omega
      · intro hinv
        exact hinv
  case OAM_Read =>
    simp only [Gpu.step_transition, Gpu.switch_mode, OAM_READ_CYCLES,
      GpuMode.toNat] at h
    split at h
    · simp only [Option.some.injEq, Prod.mk.injEq] at h
      obtain ⟨hg2, hr⟩ := h
      subst hg2; subst hr
      refine ⟨by simp, ?_, ?_⟩
      · intro _
        dsimp only
        first | (simp; omega) | simp | omega
      · intro hinv
        dsimp only [GpuInv] at hinv ⊢
        have h3 : ¬ (144 ≤ ly0) := fun hc => absurd (hinv.2.mpr hc) (by decide)
        refine ⟨by omega, ?_⟩
        first | (simp; omega) | simp | omega
    · rename_i hclk
      simp only [Option.some.injEq, Prod.mk.injEq] at h
      obtain ⟨hg2, hr⟩ := h
      subst hg2; subst hr
      refine ⟨by simp, ?_, ?_⟩
      · intro _
        dsimp only
        first | (simp; omega) | simp | omega
      · intro hinv
        exact hinv
  case VRAM_Read =>
    simp only [Gpu.step_transition, Gpu.switch_mode, VRAM_READ_CYCLES,
      GpuMode.toNat] at h
    split at h
    · -- end of the visible scanline: render, then H-Blank
      rename_i hclk
      split at h
      · exact absurd h (by simp)
      · rename_i gr hrs
        simp only [Option.some.injEq, Prod.mk.injEq] at h
        obtain ⟨hg2, hr⟩ := h
        subst hg2; subst hr
        obtain ⟨hly, hmd, hmc, hdt, hst⟩ := render_scanline_spec _ _ hrs
        refine ⟨?_, ?_, ?_⟩
        · rw [stat_request_testBit_zero]
          simp [Gpu.switch_mode, hdt]
        · intro _
          rw [stat_request_testBit_zero]
          simp only [Gpu.switch_mode, hly]
          first | (simp [hly]; omega) | simp [hly] | omega
        · intro hinv
          dsimp only [GpuInv] at hinv ⊢
          have h3 : ¬ (144 ≤ ly0) := fun hc => absurd (hinv.2.mpr hc) (by decide)
          refine ⟨by simp [hly]; omega, ?_⟩
          first | (simp [hly]; omega) | simp [hly] | omega
    · rename_i hclk
      simp only [Option.some.injEq, Prod.mk.injEq] at h
      obtain ⟨hg2, hr⟩ := h
      subst hg2; subst hr
      refine ⟨by simp, ?_, ?_⟩
      · intro _
        dsimp only
        first | (simp; omega) | simp | omega
      · intro hinv
        exact hinv

/-- Helper: what one full `Gpu::step` call does to the dirty flag, the
invariant and the V-Blank request bit. -/
theorem gpu_step_spec (g : Gpu) (t : Nat) (g2 : Gpu) (r : Nat)
    (h : Gpu.step g t = some (g2, r)) :
    g2.dirty = (g.dirty || r.testBit 0) ∧
    (GpuInv g → GpuInv g2 ∧ (r.testBit 0 = true ↔ (g.ly = 143 ∧ g2.ly = 144))) := by
  unfold Gpu.step at h
  cases hdisp : lcdControlIsSet 7 g.lcd_control <;> rw [hdisp] at h
  case false =>
    simp only [Bool.not_false, if_true, Option.some.injEq, Prod.mk.injEq] at h
    obtain ⟨hg2, hr⟩ := h
    subst hg2; subst hr
    refine ⟨by simp, ?_⟩
    intro hinv
    refine ⟨hinv, ?_⟩
    simp
    omega
  case true =>
    rw [if_neg (by decide)] at h
    dsimp only at h
    cases hst : Gpu.step_transition { g with mode_clock := g.mode_clock + t } with
    | none => rw [hst] at h; exact absurd h (by simp)
    | some p =>
      obtain ⟨g1, r1⟩ := p
      rw [hst] at h
      simp only [Option.some.injEq, Prod.mk.injEq] at h
      obtain ⟨hg2, hr⟩ := h
      subst hg2; subst hr
      obtain ⟨hcly, hcmd, hcdt, hcbit⟩ := lyc_compare_spec g1
      obtain ⟨hdirty, hiff, hinvp⟩ := gpu_step_transition_spec _ _ _ hst
      have hbit : Nat.testBit (r1 ||| g1.lyc_compare.2) 0 = Nat.testBit r1 0 := by
        rw [Nat.testBit_lor, hcbit, Bool.or_false]
      refine ⟨by rw [hcdt, hbit]; exact hdirty, ?_⟩
      intro hinv
      have hinv1 : GpuInv { g with mode_clock := g.mode_clock + t } := hinv
      refine ⟨?_, ?_⟩
      · obtain ⟨ha, hb⟩ := hinvp hinv1
        exact ⟨by rw [hcly]; exact ha, by rw [hcmd, hcly]; exact hb⟩
      · rw [hbit, hcly]
        exact hiff hinv.2

/-- Helper: every reachable GPU state satisfies the LY/mode invariant. -/
theorem gpuReachable_inv (g : Gpu) (h : GpuReachable g) : GpuInv g := by
  induction h with
  | init c => exact ⟨by simp [Gpu.new], by simp [Gpu.new]⟩
  | step g g2 t r _ hstep ih => exact ((gpu_step_spec g t g2 r hstep).2 ih).1

/-- C7: in every GPU state reachable by a sequence of `step` calls, LY is
in [0, 154); the mode is V-Blank exactly when LY is at least 144; and a
step requests the V-Blank interrupt exactly when it moves LY from 143 to
144, so the request fires exactly once per frame. -/
theorem gpu_ly_mode_vblank_discipline (g : Gpu) (h : GpuReachable g) :
    g.ly < 154 ∧ (g.mode = GpuMode.V_Blank ↔ 144 ≤ g.ly) ∧
    (∀ (t : Nat) (g2 : Gpu) (r : Nat), Gpu.step g t = some (g2, r) →
      (Nat.testBit r 0 = true ↔ (g.ly = 143 ∧ g2.ly = 144))) := by
  have hinv := gpuReachable_inv g h
  exact ⟨hinv.1, hinv.2,
    fun t g2 r hs => ((gpu_step_spec g t g2 r hs).2 hinv).2⟩

/-- Witness for C7 at the fresh display-enabled GPU state, reachable by
the empty step sequence. -/
theorem gpu_ly_mode_vblank_discipline_witness :
    ({ Gpu.new with lcd_control := 0x91 } : Gpu).ly < 154 ∧
    (({ Gpu.new with lcd_control := 0x91 } : Gpu).mode = GpuMode.V_Blank ↔
      144 ≤ ({ Gpu.new with lcd_control := 0x91 } : Gpu).ly) :=
  ⟨(gpu_ly_mode_vblank_discipline _ (GpuReachable.init 0x91)).1,
   (gpu_ly_mode_vblank_discipline _ (GpuReachable.init 0x91)).2.1⟩

/-- C9 (amended): `MMU::frame_buffer` hands the frame out exactly once
per dirty marking — a second call with no intervening completion returns
`None`, and a call returns `Some` exactly when the GPU dirty flag is set;
a GPU step sets the dirty flag exactly when it requests the V-Blank
interrupt (frame completion). However, the flag starts out true in
`Gpu::new`, so the very first call returns `Some` (the initial blank
frame) before any frame has completed. -/
theorem frame_buffer_once_per_dirty :
    (∀ m : MMU, ((m.frame_buffer).2.frame_buffer).1 = none) ∧
    (∀ m : MMU, (m.frame_buffer).1.isSome = m.gpu.dirty) ∧
    (∀ (g : Gpu) (t : Nat), (Gpu.step g t).map (fun p => p.1.dirty) =
      (Gpu.step g t).map (fun p => g.dirty || Nat.testBit p.2 0)) := by
  refine ⟨?_, ?_, ?_⟩
  · intro m
    by_cases hd : m.gpu.dirty
    · simp [MMU.frame_buffer, hd]
    · simp [MMU.frame_buffer, hd]
  · intro m
    by_cases hd : m.gpu.dirty
    · simp [MMU.frame_buffer, hd]
    · simp [MMU.frame_buffer, hd]
  · intro g t
    cases hs : Gpu.step g t with
    | none => rfl
    | some p =>
      obtain ⟨g2, r⟩ := p
      rw [Option.map_some', Option.map_some']
      exact congrArg some ((gpu_step_spec g t g2 r hs).1)

end RustBoy
